import Mathlib

/-!
Verification of the PAJ-SM+ eligibility evaluator and stage-progression
engine (src/services/eligibilityService.js, src/services/pajsmService.js,
src/config/pajsm.js).  JavaScript values that may be `undefined`/`null`
are embedded as `Option`/`JSVal`; database rows become the `Participant`
structure; fallible service calls return `Except String`.
-/

/-- A small model of dynamic JavaScript values, used for fields the code
compares with strict equality (`===`) or coerces by truthiness. -/
inductive JSVal where
  | null
  | undef
  | bool (b : Bool)
  | str (s : String)
  | num (n : Int)
deriving DecidableEq

/-- JavaScript truthiness for `JSVal`. -/
def JSVal.truthy : JSVal → Bool
  | .null => false
  | .undef => false
  | .bool b => b
  | .str s => !(s == "")
  | .num n => !(n == 0)

/-- `Object.values(VULNERABILITIES)` from src/config/pajsm.js. -/
def VALID_VULNERABILITIES : List String :=
  ["mental_health_disorder", "intellectual_disability", "asd",
   "substance_use_disorder", "traumatic_brain_injury"]

/-- `ABSOLUTE_EXCLUSIONS` from src/config/pajsm.js. -/
def ABSOLUTE_EXCLUSIONS : List String :=
  ["death_resulting_offences",
   "attempted_or_conspired_death_offences",
   "superior_court_jurisdiction",
   "sexual_offences_against_minors",
   "transport_offences_causing_injury",
   "terrorism",
   "criminal_organization",
   "firearms_weapons_by_indictment"]

/-- `SUMMARY_ELIGIBLE_EXCEPTIONS` from src/config/pajsm.js. -/
def SUMMARY_ELIGIBLE_EXCEPTIONS : List String :=
  ["domestic_violence", "sexual_violence", "elder_abuse"]

/-- The input record consumed by `checkEligibility`.  Fields the code
reads with `Array.isArray` / list membership are `Option`s (JS
`undefined` is `none`); `victim_consent` keeps full JS dynamism because
the code compares it with strict `=== true`; the four attestations are
read only for truthiness. -/
structure EligibilityData where
  vulnerabilities : Option (List String)
  offence_category : Option String
  prosecution_mode : Option String
  victim_consent : JSVal
  accepts_responsibility : Bool
  is_voluntary : Bool
  waives_delay : Bool
  criminally_fit : Bool
deriving DecidableEq

/-- The verdict returned by `checkEligibility`. -/
structure EligibilityVerdict where
  eligible : Bool
  reasons : List String
deriving DecidableEq

/-- JS `list.includes(x)` where `x` may be `undefined`. -/
def optIncludes (l : List String) (v : Option String) : Bool :=
  match v with
  | some s => l.contains s
  | none => false

/-- Template-literal rendering of a possibly-undefined category. -/
def catName (v : Option String) : String :=
  match v with
  | some s => s
  | none => "undefined"

/-- `checkEligibility` from src/services/eligibilityService.js: seven
independent checks, each appending a reason on failure, never
short-circuiting; eligible iff the accumulated reason list is empty. -/
def checkEligibility (data : EligibilityData) : EligibilityVerdict :=
  let hasVulnerability :=
    match data.vulnerabilities with
    | some vs => vs.any (fun v => VALID_VULNERABILITIES.contains v)
    | none => false
  let reasons : List String :=
    (if !hasVulnerability then
      ["At least one recognized vulnerability is required"]
     else [])
  let reasons := reasons ++
    (if optIncludes ABSOLUTE_EXCLUSIONS data.offence_category then
      ["Offence category \"" ++ catName data.offence_category ++
        "\" is absolutely excluded from PAJ-SM+"]
     else [])
  let reasons := reasons ++
    (if optIncludes SUMMARY_ELIGIBLE_EXCEPTIONS data.offence_category then
      (if data.prosecution_mode != some "summary" then
        ["Offence category \"" ++ catName data.offence_category ++
          "\" requires summary prosecution mode"]
       else []) ++
      (if data.victim_consent != JSVal.bool true then
        ["Offence category \"" ++ catName data.offence_category ++
          "\" requires victim consent"]
       else [])
     else [])
  let reasons := reasons ++
    (if !data.accepts_responsibility then
      ["Accused must accept responsibility"]
     else [])
  let reasons := reasons ++
    (if !data.is_voluntary then
      ["Participation must be voluntary"]
     else [])
  let reasons := reasons ++
    (if !data.waives_delay then
      ["Accused must waive delay rights"]
     else [])
  let reasons := reasons ++
    (if !data.criminally_fit then
      ["Accused must be criminally fit and responsible"]
     else [])
  { eligible := reasons.length == 0, reasons := reasons }

/-- `PROGRAM_STAGES` from src/config/pajsm.js. -/
def PROGRAM_STAGES : List String :=
  ["referral", "prosecutor_evaluation", "clinical_eligibility",
   "intervention_plan", "hearing_followups", "program_outcome"]

/-- A `pajsm_participants` row, restricted to the columns the
stage-progression operations read or write.  Nullable timestamp columns
are `Option String` (ISO strings); `outcome` is one of the three outcome
strings or `none`. -/
structure Participant where
  id : String
  stage : String
  enrolled_at : Option String
  completed_at : Option String
  outcome : Option String
  victim_consent : JSVal
  updated_at : Option String
deriving DecidableEq

/-- `advanceStage` from src/services/pajsmService.js, with the current
time passed explicitly.  The JS `PROGRAM_STAGES.indexOf` returning `-1`
becomes the `none` branch of `findIdx?`; both it and the
at-final-stage case raise the same error, exactly as the JS `||` does. -/
def advanceStage (now : String) (p : Participant) : Except String Participant :=
  match PROGRAM_STAGES.findIdx? (fun x => x == p.stage) with
  | none => .error "Cannot advance beyond the final stage"
  | some currentIndex =>
    if currentIndex ≥ PROGRAM_STAGES.length - 1 then
      .error "Cannot advance beyond the final stage"
    else
      let nextStage := PROGRAM_STAGES.getD (currentIndex + 1) ""
      let p1 := { p with stage := nextStage, updated_at := some now }
      let p2 :=
        if nextStage == "prosecutor_evaluation" && p.enrolled_at.isNone then
          { p1 with enrolled_at := some now }
        else p1
      let p3 :=
        if nextStage == "program_outcome" then
          { p2 with completed_at := some now, outcome := some "completed" }
        else p2
      .ok p3

/-- `withdraw` from src/services/pajsmService.js.  The `reason` argument
is accepted but, as in the source, never used. -/
def withdraw (now : String) (p : Participant) (reason : String) :
    Except String Participant :=
  if p.outcome.isSome then
    .error "Participant already has a final outcome"
  else
    .ok { p with outcome := some "withdrawn", completed_at := some now,
                 updated_at := some now }

/-- `revokeVictimConsent` from src/services/pajsmService.js. -/
def revokeVictimConsent (now : String) (p : Participant) :
    Except String Participant :=
  if p.outcome.isSome then
    .error "Participant already has a final outcome"
  else
    .ok { p with victim_consent := JSVal.bool false,
                 outcome := some "returned_to_court",
                 completed_at := some now, updated_at := some now }

/-- A `pajsm_intervention_plans` row as created by
`createInterventionPlan`. -/
structure InterventionPlan where
  id : String
  participant_id : String
  plan_details : Option String
  objectives : Option String
  created_by : String
deriving DecidableEq

/-- `createInterventionPlan` from src/services/pajsmService.js: gated
solely on the participant's stage. -/
def createInterventionPlan (p : Participant) (newId : String)
    (plan_details objectives : Option String) (userId : String) :
    Except String InterventionPlan :=
  if p.stage != "intervention_plan" then
    .error "Intervention plans can only be created during the intervention_plan stage"
  else
    .ok { id := newId, participant_id := p.id, plan_details := plan_details,
          objectives := objectives, created_by := userId }

/-- A `pajsm_follow_ups` row as created by `addFollowUp`. -/
structure FollowUp where
  id : String
  participant_id : String
  follow_up_date : String
  notes : Option String
  recorded_by : String
deriving DecidableEq

/-- `addFollowUp` from src/services/pajsmService.js: gated solely on the
participant's stage. -/
def addFollowUp (p : Participant) (newId : String)
    (follow_up_date : String) (notes : Option String) (userId : String) :
    Except String FollowUp :=
  if p.stage != "hearing_followups" then
    .error "Follow-ups can only be added during the hearing_followups stage"
  else
    .ok { id := newId, participant_id := p.id,
          follow_up_date := follow_up_date, notes := notes,
          recorded_by := userId }

/-- The validation error thrown by `enroll`. -/
structure EnrollError where
  message : String
  statusCode : Nat
  reasons : List String
deriving DecidableEq

/-- JS `v || null`. -/
def jsOrNull (v : JSVal) : JSVal :=
  if v.truthy then v else JSVal.null

/-- `enroll` from src/services/pajsmService.js: rejects ineligible input
with the full reason list, otherwise inserts a row at stage `referral`;
the INSERT names neither `enrolled_at`, `completed_at` nor `outcome`, so
they take the schema's NULL defaults. -/
def enroll (now newId : String) (data : EligibilityData) :
    Except EnrollError Participant :=
  let result := checkEligibility data
  if !result.eligible then
    .error { message := "Participant is not eligible for PAJ-SM+",
             statusCode := 400, reasons := result.reasons }
  else
    .ok { id := newId, stage := "referral", enrolled_at := none,
          completed_at := none, outcome := none,
          victim_consent := jsOrNull data.victim_consent,
          updated_at := some now }

/-- Successive `advanceStage` calls, one per supplied timestamp. -/
def advanceTimes (times : List String) (p : Participant) :
    Except String Participant :=
  match times with
  | [] => .ok p
  | t :: ts => (advanceStage t p).bind (advanceTimes ts)

/-- A freshly-enrolled concrete participant at stage `referral`, used as
a concrete evaluation point. -/
def refP0 : Participant :=
  { id := "p0", stage := "referral", enrolled_at := none,
    completed_at := none, outcome := none, victim_consent := JSVal.null,
    updated_at := none }

/-- `refP0` after a withdrawal has set its outcome. -/
def wdP0 : Participant :=
  { refP0 with outcome := some "withdrawn" }

/-- A participant sitting at the `intervention_plan` stage whose outcome
was already set by an out-of-band withdrawal. -/
def wdIP : Participant :=
  { id := "p1", stage := "intervention_plan", enrolled_at := some "t1",
    completed_at := some "t2", outcome := some "withdrawn",
    victim_consent := JSVal.null, updated_at := some "t2" }

/-- `refP0` after five successful `advanceStage` calls at times
`t1`..`t5`. -/
def q5 : Participant :=
  { id := "p0", stage := "program_outcome", enrolled_at := some "t1",
    completed_at := some "t5", outcome := some "completed",
    victim_consent := JSVal.null, updated_at := some "t5" }

/-- `refP0` after one successful `advanceStage` call at time `t1`. -/
def pe1 : Participant :=
  { id := "p0", stage := "prosecutor_evaluation", enrolled_at := some "t1",
    completed_at := none, outcome := none, victim_consent := JSVal.null,
    updated_at := some "t1" }

/-- A concrete maximally-failing eligibility input: empty vulnerability
list, absolutely-excluded category, indictment mode, all attestations
false. -/
def maxFailData : EligibilityData :=
  { vulnerabilities := some [], offence_category := some "terrorism",
    prosecution_mode := some "indictment", victim_consent := JSVal.undef,
    accepts_responsibility := false, is_voluntary := false,
    waives_delay := false, criminally_fit := false }

/-- A concrete passing conditional-exclusion input: `domestic_violence`
prosecuted summarily with strict victim consent and all attestations
true. -/
def dvData : EligibilityData :=
  { vulnerabilities := some ["asd"],
    offence_category := some "domestic_violence",
    prosecution_mode := some "summary", victim_consent := JSVal.bool true,
    accepts_responsibility := true, is_voluntary := true,
    waives_delay := true, criminally_fit := true }

/-- `dvData` switched to indictment mode. -/
def dvIndict : EligibilityData :=
  { dvData with prosecution_mode := some "indictment" }

/-- `dvData` with the victim consent left undefined. -/
def dvNoConsent : EligibilityData :=
  { dvData with victim_consent := JSVal.undef }

/-- Claim C3: for every input, the verdict returned by the eligibility
evaluator has `eligible = true` exactly when its reason list is
empty. -/
theorem c3_eligible_iff_reasons_empty (data : EligibilityData) :
    (checkEligibility data).eligible = true ↔
      (checkEligibility data).reasons = [] := by
  simp [checkEligibility, List.length_eq_zero]

/-- Claim C10: the participant record produced by `withdraw` does not
depend on the `reason` argument, which is never stored or inspected. -/
theorem c10_withdraw_reason_noninterference (now : String) (p : Participant)
    (r1 r2 : String) : withdraw now p r1 = withdraw now p r2 := rfl

/-- Claim C7: when the outcome is unset, `withdraw` sets
`outcome = withdrawn` and `completed_at = now`, leaving the stage (and
every other field except `updated_at`) unchanged; when the outcome is
already set, it fails with "already has a final outcome". -/
theorem c7_withdraw_effects (now : String) (p : Participant) (reason : String) :
    (p.outcome = none →
      withdraw now p reason =
        .ok { p with outcome := some "withdrawn", completed_at := some now,
                     updated_at := some now }) ∧
    (p.outcome.isSome = true →
      withdraw now p reason = .error "Participant already has a final outcome") := by
  constructor <;> intro h <;> simp [withdraw, h]

/-- Witness for C7, at a fresh participant and at a withdrawn one. -/
theorem c7_witness :
    withdraw "w1" refP0 "r" =
      .ok { refP0 with outcome := some "withdrawn",
                       completed_at := some "w1", updated_at := some "w1" } ∧
    withdraw "w2" wdP0 "r" = .error "Participant already has a final outcome" :=
  ⟨(c7_withdraw_effects "w1" refP0 "r").1 rfl,
   (c7_withdraw_effects "w2" wdP0 "r").2 rfl⟩

/-- Claim C8: `enroll` on an ineligible input fails with a status-400
validation error carrying the full reason list and creates no
participant; on an eligible input it creates a participant at stage
`referral` with `enrolled_at`, `completed_at` and `outcome` all unset. -/
theorem c8_enroll_gate (now newId : String) (data : EligibilityData) :
    ((checkEligibility data).eligible = false →
      enroll now newId data =
        .error { message := "Participant is not eligible for PAJ-SM+",
                 statusCode := 400,
                 reasons := (checkEligibility data).reasons }) ∧
    ((checkEligibility data).eligible = true →
      enroll now newId data =
        .ok { id := newId, stage := "referral", enrolled_at := none,
              completed_at := none, outcome := none,
              victim_consent := jsOrNull data.victim_consent,
              updated_at := some now }) := by
  constructor <;> intro h <;> simp [enroll, h]

/-- Witness for C8, at a passing and at a failing concrete input. -/
theorem c8_witness :
    enroll "e1" "id1" dvData =
      .ok { id := "id1", stage := "referral", enrolled_at := none,
            completed_at := none, outcome := none,
            victim_consent := JSVal.bool true, updated_at := some "e1" } ∧
    enroll "e2" "id2" maxFailData =
      .error { message := "Participant is not eligible for PAJ-SM+",
               statusCode := 400,
               reasons := (checkEligibility maxFailData).reasons } :=
  ⟨(c8_enroll_gate "e1" "id1" dvData).2 rfl,
   (c8_enroll_gate "e2" "id2" maxFailData).1 rfl⟩

/-- Claim C9: `createInterventionPlan` and `addFollowUp` are gated only
on the participant's stage, never on its outcome: for an arbitrary
participant (in particular one whose terminal outcome is already set)
they succeed exactly when the stage matches, and fail otherwise. -/
theorem c9_stage_only_gates (p : Participant) (newId : String)
    (pd obj notes : Option String) (uid fd : String) :
    (p.stage = "intervention_plan" →
      createInterventionPlan p newId pd obj uid =
        .ok { id := newId, participant_id := p.id, plan_details := pd,
              objectives := obj, created_by := uid }) ∧
    (p.stage ≠ "intervention_plan" →
      createInterventionPlan p newId pd obj uid =
        .error "Intervention plans can only be created during the intervention_plan stage") ∧
    (p.stage = "hearing_followups" →
      addFollowUp p newId fd notes uid =
        .ok { id := newId, participant_id := p.id, follow_up_date := fd,
              notes := notes, recorded_by := uid }) ∧
    (p.stage ≠ "hearing_followups" →
      addFollowUp p newId fd notes uid =
        .error "Follow-ups can only be added during the hearing_followups stage") := by
  refine ⟨fun h => ?_, fun h => ?_, fun h => ?_, fun h => ?_⟩ <;>
    simp [createInterventionPlan, addFollowUp, bne_iff_ne, h]

/-- Witness for C9: a withdrawn participant still at the
`intervention_plan` stage gets a plan created, while `addFollowUp` on it
fails on the stage check alone. -/
theorem c9_witness :
    createInterventionPlan wdIP "ip1" none none "u1" =
      .ok { id := "ip1", participant_id := "p1", plan_details := none,
            objectives := none, created_by := "u1" } ∧
    addFollowUp wdIP "fu1" "d1" none "u1" =
      .error "Follow-ups can only be added during the hearing_followups stage" :=
  ⟨(c9_stage_only_gates wdIP "ip1" none none none "u1" "d1").1 rfl,
   (c9_stage_only_gates wdIP "fu1" none none none "u1" "d1").2.2.2 (by decide)⟩

/-- Claim C4: a maximally-failing input (empty vulnerability list,
absolutely-excluded category, indictment mode, all four attestations
false) is ineligible with at least five reasons — in fact exactly the
six reasons of the six independent failing checks — and the
conditional-exclusion check is skipped because no absolutely-excluded
category is a summary-eligible exception. -/
theorem c4_maximally_failing (data : EligibilityData) (c : String)
    (hv : data.vulnerabilities = some [])
    (hc : data.offence_category = some c)
    (habs : c ∈ ABSOLUTE_EXCLUSIONS)
    (h4 : data.accepts_responsibility = false)
    (h5 : data.is_voluntary = false)
    (h6 : data.waives_delay = false)
    (h7 : data.criminally_fit = false) :
    (checkEligibility data).eligible = false ∧
    5 ≤ (checkEligibility data).reasons.length ∧
    c ∉ SUMMARY_ELIGIBLE_EXCEPTIONS ∧
    (checkEligibility data).reasons =
      ["At least one recognized vulnerability is required",
       "Offence category \"" ++ c ++ "\" is absolutely excluded from PAJ-SM+",
       "Accused must accept responsibility",
       "Participation must be voluntary",
       "Accused must waive delay rights",
       "Accused must be criminally fit and responsible"] := by
  fin_cases habs <;>
    simp [checkEligibility, optIncludes, catName, hv, hc, h4, h5, h6, h7,
          SUMMARY_ELIGIBLE_EXCEPTIONS, ABSOLUTE_EXCLUSIONS]

/-- Witness for C4, at the concrete maximally-failing input. -/
theorem c4_witness :
    (checkEligibility maxFailData).eligible = false ∧
    5 ≤ (checkEligibility maxFailData).reasons.length := by
  have h := c4_maximally_failing maxFailData "terrorism" rfl rfl (by decide)
    rfl rfl rfl rfl
  exact ⟨h.1, h.2.1⟩

/-- Claim C5: for a summary-eligible-exception category with a valid
vulnerability and all attestations true: summary mode with strict
victim consent is eligible; indictment mode with consent is ineligible
with the "requires summary prosecution mode" reason; and any
victim-consent value other than strict boolean true appends the
consent-requirement reason. -/
theorem c5_conditional_exclusion (data : EligibilityData) (c : String)
    (hc : data.offence_category = some c)
    (hs : c ∈ SUMMARY_ELIGIBLE_EXCEPTIONS)
    (hv : ∃ vs, data.vulnerabilities = some vs ∧
      vs.any (fun v => VALID_VULNERABILITIES.contains v) = true)
    (h4 : data.accepts_responsibility = true)
    (h5 : data.is_voluntary = true)
    (h6 : data.waives_delay = true)
    (h7 : data.criminally_fit = true) :
    ((data.prosecution_mode = some "summary" ∧
        data.victim_consent = JSVal.bool true) →
      (checkEligibility data).eligible = true) ∧
    ((data.prosecution_mode = some "indictment" ∧
        data.victim_consent = JSVal.bool true) →
      (checkEligibility data).eligible = false ∧
      ("Offence category \"" ++ c ++ "\" requires summary prosecution mode")
        ∈ (checkEligibility data).reasons) ∧
    (data.victim_consent ≠ JSVal.bool true →
      ("Offence category \"" ++ c ++ "\" requires victim consent")
        ∈ (checkEligibility data).reasons) := by
  obtain ⟨vs, hveq, hany⟩ := hv
  have hmem : ∃ x ∈ vs, x ∈ VALID_VULNERABILITIES := by simpa using hany
  refine ⟨?_, ?_, ?_⟩
  · rintro ⟨hm, hvc⟩
    fin_cases hs <;>
      simpa [checkEligibility, optIncludes, catName, hc, hveq, hany, hm, hvc,
             h4, h5, h6, h7, SUMMARY_ELIGIBLE_EXCEPTIONS, ABSOLUTE_EXCLUSIONS]
        using hmem
  · rintro ⟨hm, hvc⟩
    fin_cases hs <;>
      simp [checkEligibility, optIncludes, catName, hc, hveq, hany, hm, hvc,
            h4, h5, h6, h7, SUMMARY_ELIGIBLE_EXCEPTIONS, ABSOLUTE_EXCLUSIONS]
  · intro hvc
    fin_cases hs <;>
      simp [checkEligibility, optIncludes, catName, hc, hveq, hany, hvc,
            h4, h5, h6, h7, bne_iff_ne,
            SUMMARY_ELIGIBLE_EXCEPTIONS, ABSOLUTE_EXCLUSIONS]

/-- Witness for C5, at the three concrete `domestic_violence` inputs. -/
theorem c5_witness :
    (checkEligibility dvData).eligible = true ∧
    (checkEligibility dvIndict).eligible = false ∧
    ("Offence category \"" ++ "domestic_violence" ++
        "\" requires summary prosecution mode")
      ∈ (checkEligibility dvIndict).reasons ∧
    ("Offence category \"" ++ "domestic_violence" ++
        "\" requires victim consent")
      ∈ (checkEligibility dvNoConsent).reasons := by
  have h1 := c5_conditional_exclusion dvData "domestic_violence" rfl
    (by decide) ⟨["asd"], rfl, by decide⟩ rfl rfl rfl rfl
  have h2 := c5_conditional_exclusion dvIndict "domestic_violence" rfl
    (by decide) ⟨["asd"], rfl, by decide⟩ rfl rfl rfl rfl
  have h3 := c5_conditional_exclusion dvNoConsent "domestic_violence" rfl
    (by decide) ⟨["asd"], rfl, by decide⟩ rfl rfl rfl rfl
  exact ⟨h1.1 ⟨rfl, rfl⟩, (h2.2.1 ⟨rfl, rfl⟩).1, (h2.2.1 ⟨rfl, rfl⟩).2,
         h3.2.2 (by decide)⟩

/-- Counterexample to C1 as stated: on a fresh participant at stage
`referral`, `withdraw` succeeds and sets `outcome = withdrawn`, yet the
subsequent `advanceStage` call also succeeds — it advances the stage to
`prosecutor_evaluation` with the withdrawn outcome still in place,
instead of failing with "already has a final outcome". -/
theorem c1_counterexample :
    ((withdraw "t1" refP0 "personal").bind (fun q => advanceStage "t2" q)).map
        (fun q => (q.stage, q.outcome)) =
      .ok ("prosecutor_evaluation", some "withdrawn") := rfl

/-- Claim C1 (amended): once the outcome is set, `withdraw` and
`revokeVictimConsent` fail with "already has a final outcome" and
return no modified record; `advanceStage`, however, never inspects the
outcome — it succeeds whenever the stage is recognized and below the
final stage, so withdraw followed by advanceStage succeeds rather than
failing. -/
theorem c1_amended_outcome_checks (now : String) (p : Participant)
    (reason : String) (h : p.outcome.isSome = true) :
    withdraw now p reason = .error "Participant already has a final outcome" ∧
    revokeVictimConsent now p = .error "Participant already has a final outcome" ∧
    (∀ i, PROGRAM_STAGES.findIdx? (fun x => x == p.stage) = some i →
      i < PROGRAM_STAGES.length - 1 → (advanceStage now p).isOk = true) := by
  refine ⟨by simp [withdraw, h], by simp [revokeVictimConsent, h], ?_⟩
  intro i hidx hlt
  unfold advanceStage
  rw [hidx]
  simp [Except.isOk, Except.toBool, ge_iff_le, Nat.not_le.mpr hlt]

/-- Witness for the amended C1, at the concrete withdrawn participant
still sitting at stage `referral`. -/
theorem c1_witness :
    withdraw "t3" wdP0 "r" = .error "Participant already has a final outcome" ∧
    revokeVictimConsent "t3" wdP0 = .error "Participant already has a final outcome" ∧
    (advanceStage "t3" wdP0).isOk = true := by
  have h := c1_amended_outcome_checks "t3" wdP0 "r" rfl
  exact ⟨h.1, h.2.1, h.2.2 0 rfl (by decide)⟩

/-- Counterexample to C2 as stated: from the concrete `referral`
participant, a chain of six `advanceStage` calls already fails (the
sixth call errors), while five calls suffice to reach
`program_outcome` — the claim's six-successes-then-seventh-fails
counting is off by one. -/
theorem c2_counterexample :
    advanceTimes ["t1", "t2", "t3", "t4", "t5", "t6"] refP0 =
      .error "Cannot advance beyond the final stage" ∧
    (advanceTimes ["t1", "t2", "t3", "t4", "t5"] refP0).map Participant.stage =
      .ok "program_outcome" :=
  ⟨rfl, rfl⟩

/-- Claim C2 (amended): starting from any participant at stage
`referral`, five successive successful `advanceStage` calls reach
`program_outcome` with `outcome = completed` and `completed_at` set to
the time of the fifth call, and a sixth call fails with "Cannot advance
beyond the final stage". -/
theorem c2_amended_five_advances (p : Participant)
    (t1 t2 t3 t4 t5 t6 : String) (hs : p.stage = "referral") :
    ∃ q, advanceTimes [t1, t2, t3, t4, t5] p = .ok q ∧
      q.stage = "program_outcome" ∧ q.outcome = some "completed" ∧
      q.completed_at = some t5 ∧
      advanceStage t6 q = .error "Cannot advance beyond the final stage" := by
  obtain ⟨i, s, e, cmp, o, v, u⟩ := p
  obtain rfl : s = "referral" := hs
  cases e <;> exact ⟨_, rfl, rfl, rfl, rfl, rfl⟩

/-- Witness for the amended C2, at the concrete `referral`
participant. -/
theorem c2_witness :
    advanceTimes ["t1", "t2", "t3", "t4", "t5"] refP0 = .ok q5 ∧
    q5.stage = "program_outcome" ∧ q5.outcome = some "completed" ∧
    q5.completed_at = some "t5" ∧
    advanceStage "t6" q5 = .error "Cannot advance beyond the final stage" := by
  obtain ⟨q, h1, h2, h3, h4, h5⟩ :=
    c2_amended_five_advances refP0 "t1" "t2" "t3" "t4" "t5" "t6" rfl
  have h0 : advanceTimes ["t1", "t2", "t3", "t4", "t5"] refP0 = .ok q5 := rfl
  injection h1.symm.trans h0 with hq
  subst hq
  exact ⟨h0, h2, h3, h4, h5⟩

/-- Claim C6: on every successful `advanceStage` call the only
timestamp/outcome side effects are: entering `prosecutor_evaluation`
sets `enrolled_at` to the current time only when it was unset (an
already-set value is preserved); entering `program_outcome` sets
`completed_at` to the current time and `outcome` to `completed`; every
other transition leaves `enrolled_at`, `completed_at` and `outcome`
unchanged (and no transition touches `id` or `victim_consent`). -/
theorem c6_frame (now : String) (p q : Participant)
    (h : advanceStage now p = .ok q) :
    q.id = p.id ∧ q.victim_consent = p.victim_consent ∧
    (q.stage = "prosecutor_evaluation" →
      q.enrolled_at = (if p.enrolled_at.isNone then some now else p.enrolled_at) ∧
      q.completed_at = p.completed_at ∧ q.outcome = p.outcome) ∧
    (q.stage = "program_outcome" →
      q.completed_at = some now ∧ q.outcome = some "completed" ∧
      q.enrolled_at = p.enrolled_at) ∧
    (q.stage ≠ "prosecutor_evaluation" → q.stage ≠ "program_outcome" →
      q.enrolled_at = p.enrolled_at ∧ q.completed_at = p.completed_at ∧
      q.outcome = p.outcome) := by
  unfold advanceStage at h
  cases hidx : PROGRAM_STAGES.findIdx? (fun x => x == p.stage) with
  | none => rw [hidx] at h; cases h
  | some i =>
    rw [hidx] at h
    by_cases hge : PROGRAM_STAGES.length - 1 ≤ i
    · simp only [ge_iff_le, if_pos hge] at h
      exact Except.noConfusion h
    · have hi5 : i < 5 := by
        simpa [PROGRAM_STAGES] using Nat.lt_of_not_le hge
      cases he : p.enrolled_at with
      | none =>
        interval_cases i <;> simp [PROGRAM_STAGES, ge_iff_le, he] at h <;>
          subst h <;> simp [he]
      | some a =>
        interval_cases i <;> simp [PROGRAM_STAGES, ge_iff_le, he] at h <;>
          subst h <;> simp [he]

/-- Witness for C6, at the concrete advance of `refP0` into
`prosecutor_evaluation`. -/
theorem c6_witness :
    pe1.enrolled_at = some "t1" ∧ pe1.completed_at = refP0.completed_at ∧
    pe1.outcome = refP0.outcome := by
  have h := (c6_frame "t1" refP0 pe1 rfl).2.2.1 rfl
  exact ⟨by rw [h.1]; rfl, h.2.1, h.2.2⟩
